import Mathlib

/-!
Shallow embedding of the posture-face-compare backend (Python/FastAPI).

The embedding translates:
* `src/CRUD/user/models.py` — the bitwise permission model
  (`check_permission`, `grant_permission`, `revoke_permission`);
* `src/auth.py` — JWT verification (`verify_jwt`, `validate_user`);
* `src/query.py` — the authorization guard (`_guard_db`, `find_by`);
* `src/CRUD/face/services.py` — the embedding cache inside `compare_face`
  (`cached_faces` / `cache_settle_time` / `CACHE_TTL`), the similarity
  scoring (`compare_faces`) with its descending ranking, and `upload_face`.

Python arbitrary-precision integers are modelled by `ℤ`; the bitwise
operators `&`, `|`, `~` on them are `Int.land`, `Int.lor`, `Int.lnot`
(two's-complement semantics, exactly as in Python).  Wall-clock instants
are rationals (seconds); the float `-np.inf` initial value of
`cache_settle_time` is modelled by `none`.  Errors raised by the code
(`HTTPException(status_code, detail)` and the two `ValueError`s of the
permission model) become an explicit error type.  The externally supplied
collaborators (dlib feature extraction, python-magic file typing) enter as
function parameters, as the spec treats them as external interfaces.
Floating-point similarity scores are idealised: the ranking step is proved
for an arbitrary score assignment over `ℚ`, and the score formula itself
is analysed over `ℝ` with `ε = 2 ^ (-23)`, the machine epsilon of
`np.float32`.
-/

namespace PostureFaceCompare

/-- Errors raised by the code: `HTTPException(status_code, detail)`, the
two `ValueError`s of the permission model (whose messages are
"Invalid Permission: Permission code must be between 0 and 7." and
"Multiple Permission: Can only grant one permission at a time."), and an
unhandled Python `TypeError` (surfaced by FastAPI as a generic 500
response rather than an `HTTPException`). -/
inductive Err where
  | http (status_code : ℕ) (detail : String)
  | invalidPermission
  | multiplePermission
  | typeError (detail : String)
deriving DecidableEq

deriving instance DecidableEq for Except

/-! Permission bit constants from `src/CRUD/user/models.py` lines 26-34. -/

def NO_PERMISSIONS : ℤ := 0
def READ : ℤ := 1
def WRITE : ℤ := 2
def DELETE : ℤ := 4
def UPDATE : ℤ := 8
def RESERVE_1 : ℤ := 16
def RESERVE_2 : ℤ := 32
def DELETE_USERS : ℤ := 64
def GRANT_PERMISSION : ℤ := 128

/-- `User.check_permission` (`src/CRUD/user/models.py` lines 77-85), as a pure
function of the stored permission value `user_permission` and the queried
`permission`.  After the range check it returns
`self.permissions & permission != 0`. -/
def check_permission (user_permission permission : ℤ) : Except Err Bool :=
  if permission < 0 ∨ permission > 255 then
    .error .invalidPermission
  else
    .ok (decide (Int.land user_permission permission ≠ 0))

/-- `User.grant_permission` (`src/CRUD/user/models.py` lines 87-100): range
check, then the single-bit check `permission & (permission - 1) != 0`, then
`self.permissions |= permission`; the new permission value is returned. -/
def grant_permission (user_permission permission : ℤ) : Except Err ℤ :=
  if permission < 0 ∨ permission > 255 then
    .error .invalidPermission
  else if Int.land permission (permission - 1) ≠ 0 then
    .error .multiplePermission
  else
    .ok (Int.lor user_permission permission)

/-- `User.revoke_permission` (`src/CRUD/user/models.py` lines 102-115): the
same validation as `grant_permission`, then `self.permissions &= ~permission`. -/
def revoke_permission (user_permission permission : ℤ) : Except Err ℤ :=
  if permission < 0 ∨ permission > 255 then
    .error .invalidPermission
  else if Int.land permission (permission - 1) ≠ 0 then
    .error .multiplePermission
  else
    .ok (Int.land user_permission (Int.lnot permission))

/-- The effect of running the mutating method `grant_permission` on a user
whose stored permissions are `user_permission`: both `raise` statements
precede the assignment to `self.permissions`, so on an exception the stored
value is untouched. -/
def grant_permission_apply (user_permission permission : ℤ) : ℤ × Option Err :=
  match grant_permission user_permission permission with
  | .ok v => (v, none)
  | .error e => (user_permission, some e)

/-- The effect of running the mutating method `revoke_permission` on a user
whose stored permissions are `user_permission`; as for
`grant_permission_apply`, an exception leaves the stored value untouched. -/
def revoke_permission_apply (user_permission permission : ℤ) : ℤ × Option Err :=
  match revoke_permission user_permission permission with
  | .ok v => (v, none)
  | .error e => (user_permission, some e)

/-- Claims carried by a structurally well-formed JWT: the `user_id` entry of
the payload dict built by `generate_jwt` (`src/auth.py` lines 36-47; absent
for tokens minted elsewhere, hence `Option`), the expiry instant `exp`, and
the key the token was signed with. -/
structure JwtClaims where
  user_id : Option String
  exp : ℤ
  signed_with : String
deriving DecidableEq

/-- A bearer token as seen by `verify_jwt`: either undecodable garbage or a
structurally well-formed JWT carrying claims. -/
inductive Token where
  | malformed
  | wellFormed (claims : JwtClaims)
deriving DecidableEq

/-- The payload dict returned by a successful `jwt.decode`. -/
structure JwtPayload where
  user_id : Option String
deriving DecidableEq

/-- The module-level `credential_exception` of `src/auth.py` lines 26-28:
HTTP 401. -/
def credential_exception : Err :=
  .http 401 "Could not validate authorization credentials."

/-- `verify_jwt` (`src/auth.py` lines 50-60): `jwt.decode` succeeds iff the
token is well formed, was signed with the configured secret, and is not yet
expired (an instant at or past `exp` is expired); any
`ExpiredSignatureError` / `InvalidTokenError` is caught and `None` is
returned. -/
def verify_jwt (secret_key : String) (now : ℤ) : Token → Option JwtPayload
  | .malformed => none
  | .wellFormed c =>
      if c.signed_with = secret_key ∧ now < c.exp then some ⟨c.user_id⟩ else none

/-- `validate_user` (`src/auth.py` lines 63-91).  `token = none` models a
missing/empty Authorization header (`if not token`); the "Bearer " prefix
stripping of line 76 is HTTP plumbing outside the model, so the argument is
the bare token.  A failed verification or a payload without `user_id` raises
`credential_exception` (401); a verified token whose subject differs from
the claimed `user_id` raises 403; otherwise `True` is returned. -/
def validate_user (secret_key : String) (now : ℤ) (user_id : String)
    (token : Option Token) : Except Err Bool :=
  match token with
  | none => .error credential_exception
  | some t =>
    match verify_jwt secret_key now t with
    | none => .error credential_exception
    | some payload =>
      match payload.user_id with
      | none => .error credential_exception
      | some token_user_id =>
        if user_id ≠ token_user_id then
          .error (.http 403 "Authorization token can\x27t be verified specifically for this user.")
        else
          .ok true

/-- The two columns of the `users` table that the guard reads
(`src/CRUD/user/models.py`): the unique id and the bitwise permissions. -/
structure User where
  id : String
  permissions : ℤ
deriving DecidableEq

/-- `find_by` (`src/query.py` lines 16-50) at the instantiation used by
`_guard_db`: find the unique `User` row whose `id` column equals `user_id`,
else HTTP 404 with the caller-supplied detail. -/
def find_by_user_id (db : List User) (user_id : String) (fail_detail : String) :
    Except Err User :=
  match db.find? (fun u => u.id == user_id) with
  | none => .error (.http 404 fail_detail)
  | some u => .ok u

/-- `_guard_db` (`src/query.py` lines 53-75): validate the token for the
claimed user id, look the user up by id (404 on absence), check the required
permission bit (403 when missing, and a `ValueError` from
`check_permission` propagates), and finally return `True`. -/
def guard_db (secret_key : String) (now : ℤ) (auth_user_id : String)
    (token : Option Token) (permission : ℤ) (db : List User) : Except Err Bool :=
  match validate_user secret_key now auth_user_id token with
  | .error e => .error e
  | .ok _ =>
    match find_by_user_id db auth_user_id ("Failed to verify user " ++ auth_user_id) with
    | .error e => .error e
    | .ok db_uploader =>
      match check_permission db_uploader.permissions permission with
      | .error e => .error e
      | .ok b =>
        if ¬ b then
          .error (.http 403 ("The user " ++ auth_user_id ++
            " does not have the permission to access this resource."))
        else
          .ok true

/-- One row of the `faces` table as used by the face services
(`src/CRUD/face/models.py`): uploader id, raw base64 blob, optional
free-text description, and the 128-dimensional feature vector. -/
structure FaceRec where
  uploaded_by : String
  blob : String
  description : Option String
  feature : List ℚ
deriving DecidableEq

/-- The module-level cache of `src/CRUD/face/services.py` lines 44-47: the
`cached_faces` list of `(description, feature)` pairs and the
`cache_settle_time` float, whose initial value `-np.inf` is modelled by
`none` (no instant). -/
structure CacheState where
  cached_faces : List (Option String × List ℚ)
  cache_settle_time : Option ℚ
deriving DecidableEq

/-- `CACHE_TTL = 30` (`src/CRUD/face/services.py` line 47), in seconds. -/
def CACHE_TTL : ℚ := 30

/-- The module-level initial cache state: `cached_faces = []`,
`cache_settle_time = -np.inf`. -/
def initialCacheState : CacheState := ⟨[], none⟩

/-- The reload condition of `src/CRUD/face/services.py` line 262:
`len(cached_faces) == 0 or time.time() - cache_settle_time > CACHE_TTL`.
With `cache_settle_time = -np.inf` the elapsed time is `+inf`, so the
second disjunct holds at every instant. -/
def cache_is_stale (now : ℚ) (st : CacheState) : Bool :=
  st.cached_faces.length == 0 ||
    (match st.cache_settle_time with
     | none => true
     | some t => decide (now - t > CACHE_TTL))

/-- The snapshot built by the reload on `src/CRUD/face/services.py` lines
263-264: every stored face record projected to `(description, feature)`. -/
def reload_cached_faces (store : List FaceRec) : List (Option String × List ℚ) :=
  store.map fun f => (f.description, f.feature)

/-- The cache section of `compare_face` (`src/CRUD/face/services.py` lines
261-264) as a state transition: given the request instant, the store
contents and the module state, it returns the new module state, the
snapshot used to answer the request, and whether the store was queried.
Note the source updates the global `cached_faces` but never assigns
`cache_settle_time`, which therefore keeps its previous value. -/
def compare_face_cache_step (now : ℚ) (store : List FaceRec) (st : CacheState) :
    CacheState × List (Option String × List ℚ) × Bool :=
  if cache_is_stale now st then
    (⟨reload_cached_faces store, st.cache_settle_time⟩, reload_cached_faces store, true)
  else
    (st, st.cached_faces, false)

/-- The `FaceUpload` request schema (`src/CRUD/face/schemas.py`):
`user_id` (from `WithUserId`), the base64 `blob`, and the optional
`description`.  The schema carries no token, and the `upload_face`
endpoint declares no token dependency either. -/
structure FaceUpload where
  user_id : String
  blob : String
  description : Option String

/-- The success payload of `upload_face` (`src/CRUD/face/services.py` lines
157-162); the database-generated face id is modelled as the index of the
new row. -/
structure UploadResponse where
  face_id : ℕ
  uploaded_by : String
  description : Option String
deriving DecidableEq

/-- The guard invocation of `src/CRUD/face/services.py` line 137:
`_guard_db(auth=face_upload, permission=WRITE, db=db)`.  `_guard_db`
(`src/query.py` line 53) has a required `token` parameter with no default,
and this call supplies no token (nor could it: `FaceUpload` carries none),
so Python raises a `TypeError` at the call site before the guard body ever
runs. -/
def guard_db_call_missing_token : Except Err Bool :=
  .error (.typeError
    "_guard_db() missing 1 required positional argument: \x27token\x27")

/-- `upload_face` (`src/CRUD/face/services.py` lines 128-162).  The guard
step is the token-less `_guard_db` call of line 137, which raises
`TypeError` unconditionally (see `guard_db_call_missing_token`), so the
remainder of the body is unreachable; it is nevertheless translated
faithfully.  The two external collaborators enter as parameters:
`check_file_type` models `_check_file_type` (lines 105-125, python-magic
based; it raises or returns `True`) and `retrieve_face_feature` models the
dlib pipeline of lines 50-84, returning `none` when no face is detected.
On `none` the request would be rejected with HTTP 400 and nothing
inserted; otherwise the new face row would be appended and the response
assembled. -/
def upload_face (check_file_type : String → Except Err Bool)
    (retrieve_face_feature : String → Option (List ℚ))
    (req : FaceUpload) (users : List User) (faces : List FaceRec) :
    Except Err (List FaceRec × UploadResponse) :=
  match guard_db_call_missing_token with
  | .error e => .error e
  | .ok _ =>
    match check_file_type req.blob with
    | .error e => .error e
    | .ok _ =>
      match retrieve_face_feature req.blob with
      | none => .error (.http 400 "No face detected, therefore the image is not saved.")
      | some face_feature =>
        let new_face : FaceRec := ⟨req.user_id, req.blob, req.description, face_feature⟩
        .ok (faces ++ [new_face], ⟨faces.length, new_face.uploaded_by, new_face.description⟩)

/-- The stored face set after a call to `upload_face`: an exception aborts
the request before `db.add`, leaving the table as it was. -/
def upload_face_faces_after (check_file_type : String → Except Err Bool)
    (retrieve_face_feature : String → Option (List ℚ))
    (req : FaceUpload) (users : List User) (faces : List FaceRec) : List FaceRec :=
  match upload_face check_file_type retrieve_face_feature req users faces with
  | .ok (faces2, _) => faces2
  | .error _ => faces

/-- The `desc_scores` list built by `compare_face` (`src/CRUD/face/services.py`
lines 269-272): one `(description, score)` pair per cached entry, in cache
order.  The per-entry score `compare_faces(face_feature, cached_face[1])`
is abstracted into the function `score_of`, since the ranking step is
independent of the floating-point score values. -/
def desc_scores_of (score_of : List ℚ → ℚ) (cached : List (Option String × List ℚ)) :
    List (Option String × ℚ) :=
  cached.map fun cached_face => (cached_face.1, score_of cached_face.2)

/-- The sort of `src/CRUD/face/services.py` line 274:
`sorted(desc_scores, key=lambda obj: obj["score"], reverse=True)`.  Python's
`sorted` is a stable sort; with `reverse=True` it orders by descending key
while preserving the relative order of equal keys, which is exactly a
stable merge sort under the relation "left score at least right score". -/
def sort_desc_by_score (l : List (Option String × ℚ)) : List (Option String × ℚ) :=
  l.mergeSort (fun a b => decide (b.2 ≤ a.2))

/-- The ranking computed by `compare_face` (`src/CRUD/face/services.py` lines
269-274): score every cached entry, then sort by descending score. -/
def compare_face_rank (score_of : List ℚ → ℚ) (cached : List (Option String × List ℚ)) :
    List (Option String × ℚ) :=
  sort_desc_by_score (desc_scores_of score_of cached)

/-- `np.finfo(np.float32).eps`, the machine epsilon of the float32 type used
by `compare_faces` (`src/CRUD/face/services.py` line 101): `2 ^ (-23)`. -/
noncomputable def float32_eps : ℝ := 1 / 2 ^ 23

/-- `compare_faces` (`src/CRUD/face/services.py` lines 87-102) in ideal real
arithmetic: `1 / (np.linalg.norm(f1 - f2) + eps)` with the Euclidean norm
of the elementwise difference. -/
noncomputable def compare_faces (feature_1 feature_2 : List ℝ) : ℝ :=
  1 / (Real.sqrt ((List.zipWith (fun a b => (a - b) ^ 2) feature_1 feature_2).sum)
    + float32_eps)

/-- The score list built by `compare_face` for a query feature, over the real
score formula (one entry per cached face, in cache order); the ranked list
returned to the caller is a permutation of it, so its maximal score is the
maximal score of the ranked list. -/
noncomputable def compare_face_scores (face_feature : List ℝ)
    (cached : List (Option String × List ℝ)) : List (Option String × ℝ) :=
  cached.map fun cached_face => (cached_face.1, compare_faces face_feature cached_face.2)

/-! Helper lemmas: two's-complement arithmetic of `Int.land` / `Int.lor` /
`Int.lnot` on the embeddings of Python integers, and the characterisation of
the single-bit test `c & (c - 1) == 0`. -/

theorem land_coe (a b : ℕ) : Int.land ↑a ↑b = ↑(a &&& b) := rfl

theorem lor_coe (a b : ℕ) : Int.lor ↑a ↑b = ↑(a ||| b) := rfl

theorem lnot_coe (c : ℕ) : Int.lnot ↑c = Int.negSucc c := rfl

theorem land_coe_negSucc (a b : ℕ) : Int.land ↑a (Int.negSucc b) = ↑(Nat.ldiff a b) := rfl

theorem land_eq_zero_iff_testBit (a b : ℕ) :
    a &&& b = 0 ↔ ∀ i, (a.testBit i && b.testBit i) = false := by
  constructor
  · intro h i
    have := congrArg (fun x => Nat.testBit x i) h
    simpa [Nat.testBit_land] using this
  · intro h
    apply Nat.eq_of_testBit_eq
    intro i
    simpa [Nat.testBit_land] using h i

theorem ldiff_lor_self (p c : ℕ) (h : p &&& c = 0) : Nat.ldiff (p ||| c) c = p := by
  apply Nat.eq_of_testBit_eq
  intro i
  have hb := (land_eq_zero_iff_testBit p c).mp h i
  rw [Nat.testBit_ldiff, Nat.testBit_lor]
  cases hp : p.testBit i <;> cases hc : c.testBit i <;> simp_all

theorem ldiff_zero (n : ℕ) : Nat.ldiff n 0 = n := by
  apply Nat.eq_of_testBit_eq
  intro i
  simp [Nat.testBit_ldiff]

theorem zero_ldiff (n : ℕ) : Nat.ldiff 0 n = 0 := by
  apply Nat.eq_of_testBit_eq
  intro i
  simp [Nat.testBit_ldiff]

theorem ldiff_self (n : ℕ) : Nat.ldiff n n = 0 := by
  apply Nat.eq_of_testBit_eq
  intro i
  simp [Nat.testBit_ldiff]

theorem pow2_land_pred (k : ℕ) : (2 ^ k) &&& (2 ^ k - 1) = 0 := by
  rw [land_eq_zero_iff_testBit]
  intro i
  rw [Nat.testBit_two_pow, Nat.testBit_two_pow_sub_one]
  by_cases h : k = i <;> simp [h]

theorem exists_pow2_of_land_pred_eq_zero :
    ∀ c : ℕ, c ≠ 0 → c &&& (c - 1) = 0 → ∃ k, c = 2 ^ k := by
  intro c
  induction c using Nat.strong_induction_on with
  | _ c IH =>
    intro hne h
    have hb := (land_eq_zero_iff_testBit c (c - 1)).mp h
    rcases Nat.even_or_odd c with he | ho
    · obtain ⟨m, hm⟩ := he
      have hc2 : c = 2 * m := by omega
      have hmne : m ≠ 0 := by omega
      have hstep : m &&& (m - 1) = 0 := by
        rw [land_eq_zero_iff_testBit]
        intro i
        have := hb (i + 1)
        rw [Nat.testBit_add_one, Nat.testBit_add_one] at this
        have h1 : c / 2 = m := by omega
        have h2 : (c - 1) / 2 = m - 1 := by omega
        rw [h1, h2] at this
        exact this
      obtain ⟨k, hk⟩ := IH m (by omega) hmne hstep
      exact ⟨k + 1, by rw [hc2, hk]; ring⟩
    · obtain ⟨m, hm⟩ := ho
      have hmz : m = 0 := by
        have hfa : ∀ i, m.testBit i = false := by
          intro i
          have := hb (i + 1)
          rw [Nat.testBit_add_one, Nat.testBit_add_one] at this
          have h1 : c / 2 = m := by omega
          have h2 : (c - 1) / 2 = m := by omega
          rw [h1, h2] at this
          simpa using this
        apply Nat.eq_of_testBit_eq
        simpa using hfa
      exact ⟨0, by omega⟩

theorem int_land_zero (p : ℤ) : Int.land p 0 = 0 := by
  cases p with
  | ofNat m =>
    show Int.land ↑m ↑(0 : ℕ) = 0
    rw [land_coe]
    simp
  | negSucc m =>
    show (↑(Nat.ldiff 0 m) : ℤ) = 0
    rw [zero_ldiff]
    rfl

theorem int_lor_zero (p : ℤ) : Int.lor p 0 = p := by
  cases p with
  | ofNat m =>
    show (↑(m ||| 0) : ℤ) = Int.ofNat m
    rw [Nat.or_zero]
    rfl
  | negSucc m =>
    show Int.negSucc (Nat.ldiff m 0) = Int.negSucc m
    rw [ldiff_zero]

theorem int_land_lnot_zero (p : ℤ) : Int.land p (Int.lnot 0) = p := by
  cases p with
  | ofNat m =>
    show (↑(Nat.ldiff m 0) : ℤ) = Int.ofNat m
    rw [ldiff_zero]
    rfl
  | negSucc m =>
    show Int.negSucc (m ||| 0) = Int.negSucc m
    rw [Nat.or_zero]

/-! Helper lemmas for the ranking and for the real-valued score formula. -/

theorem score_le_trans : ∀ a b c : Option String × ℚ,
    (fun a b : Option String × ℚ => decide (b.2 ≤ a.2)) a b →
    (fun a b : Option String × ℚ => decide (b.2 ≤ a.2)) b c →
    (fun a b : Option String × ℚ => decide (b.2 ≤ a.2)) a c := by
  intro a b c hab hbc
  simp only [decide_eq_true_eq] at *
  exact le_trans hbc hab

theorem score_le_total : ∀ a b : Option String × ℚ,
    ((fun a b : Option String × ℚ => decide (b.2 ≤ a.2)) a b ||
     (fun a b : Option String × ℚ => decide (b.2 ≤ a.2)) b a) := by
  intro a b
  simp only [Bool.or_eq_true, decide_eq_true_eq]
  exact le_total b.2 a.2

theorem float32_eps_pos : 0 < float32_eps := by
  norm_num [float32_eps]

theorem zipWith_sq_sub_self_sum (q : List ℝ) :
    (List.zipWith (fun a b => (a - b) ^ 2) q q).sum = 0 := by
  induction q with
  | nil => simp
  | cons x xs ih => simp [ih]

theorem compare_faces_self (q : List ℝ) : compare_faces q q = 1 / float32_eps := by
  unfold compare_faces
  rw [zipWith_sq_sub_self_sum, Real.sqrt_zero, zero_add]

theorem compare_faces_le (q f : List ℝ) : compare_faces q f ≤ 1 / float32_eps := by
  unfold compare_faces
  apply one_div_le_one_div_of_le float32_eps_pos
  have h := Real.sqrt_nonneg ((List.zipWith (fun a b => (a - b) ^ 2) q f).sum)
  linarith

/-! Claim theorems. -/

/-- Claim C1 (code bug).  The claim says a match request made while the
cache is non-empty and at most `CACHE_TTL = 30` seconds after the snapshot
was built is answered from the cached snapshot without querying the store.
In the source, `cache_settle_time` is initialised to `-np.inf` and never
assigned again (neither `compare_face` nor any other function writes it),
so `time.time() - cache_settle_time > CACHE_TTL` holds on every request and
every request reloads all face records.  Concretely: a first request at
instant 0 populates the cache from a one-record store; a second request one
second later — cache non-empty, 1 second elapsed, well within the TTL —
still hits the store (third component `true`). -/
theorem compare_face_reloads_every_request_bug :
    (compare_face_cache_step 0 [⟨"u1", "blob", some "alice", [1]⟩] initialCacheState).2.2
      = true ∧
    ((compare_face_cache_step 0 [⟨"u1", "blob", some "alice", [1]⟩] initialCacheState).1.cached_faces
      = [(some "alice", [1])]) ∧
    ((1 : ℚ) - 0 ≤ CACHE_TTL) ∧
    ((compare_face_cache_step 1 [⟨"u1", "blob", some "alice", [1]⟩]
      (compare_face_cache_step 0 [⟨"u1", "blob", some "alice", [1]⟩] initialCacheState).1).2.2
      = true) := by
  refine ⟨by decide, by decide, by norm_num [CACHE_TTL], by decide⟩

/-- Claim C2, counterexample to "otherwise succeeds returning the user
record".  `_guard_db` ends with `return True`: at a concrete input the
guard succeeds with the bare Boolean `True`, and two stores whose matching
user records differ produce the very same return value, so the return value
cannot carry the user record. -/
theorem guard_db_returns_flag_not_record :
    guard_db "s" 0 "u" (some (.wellFormed ⟨some "u", 1, "s"⟩)) WRITE [⟨"u", 2⟩] = .ok true ∧
    guard_db "s" 0 "u" (some (.wellFormed ⟨some "u", 1, "s"⟩)) WRITE [⟨"u", 3⟩] = .ok true ∧
    (⟨"u", 2⟩ : User) ≠ ⟨"u", 3⟩ := by
  refine ⟨by decide, by decide, by decide⟩

/-- Claim C2 (amended).  For every guarded call, `_guard_db` first
authenticates the claimed subject, propagating the authentication failure
unchanged; then fails with HTTP 404 when no user row with the claimed id
exists; then fails with HTTP 403 when the stored permission set lacks the
required capability; and otherwise succeeds returning `True` (not the user
record — callers ignore the return value), mutating no stored state (the
guard only reads the store, as the embedding's type shows). -/
theorem guard_db_order_and_success (secret_key : String) (now : ℤ) (auth_user_id : String)
    (token : Option Token) (permission : ℤ) (db : List User) :
    (∀ e, validate_user secret_key now auth_user_id token = .error e →
      guard_db secret_key now auth_user_id token permission db = .error e) ∧
    (∀ b, validate_user secret_key now auth_user_id token = .ok b →
      db.find? (fun u => u.id == auth_user_id) = none →
      guard_db secret_key now auth_user_id token permission db =
        .error (.http 404 ("Failed to verify user " ++ auth_user_id))) ∧
    (∀ b u, validate_user secret_key now auth_user_id token = .ok b →
      db.find? (fun u => u.id == auth_user_id) = some u →
      check_permission u.permissions permission = .ok false →
      guard_db secret_key now auth_user_id token permission db =
        .error (.http 403 ("The user " ++ auth_user_id ++
          " does not have the permission to access this resource."))) ∧
    (∀ b u, validate_user secret_key now auth_user_id token = .ok b →
      db.find? (fun u => u.id == auth_user_id) = some u →
      check_permission u.permissions permission = .ok true →
      guard_db secret_key now auth_user_id token permission db = .ok true) := by
  refine ⟨?_, ?_, ?_, ?_⟩
  · intro e hv
    simp [guard_db, hv]
  · intro b hv hf
    simp [guard_db, find_by_user_id, hv, hf]
  · intro b u hv hf hc
    simp [guard_db, find_by_user_id, hv, hf, hc]
  · intro b u hv hf hc
    simp [guard_db, find_by_user_id, hv, hf, hc]

/-- Witness for the amended claim C2: the guard fails with 404 on an empty
user table and succeeds with `True` once the user row with the write bit is
present. -/
theorem guard_db_order_and_success_witness :
    guard_db "k" 0 "w" (some (.wellFormed ⟨some "w", 5, "k"⟩)) WRITE [] =
      .error (.http 404 ("Failed to verify user " ++ "w")) ∧
    guard_db "k" 0 "w" (some (.wellFormed ⟨some "w", 5, "k"⟩)) WRITE [⟨"w", 2⟩] = .ok true := by
  constructor
  · exact (guard_db_order_and_success "k" 0 "w"
      (some (.wellFormed ⟨some "w", 5, "k"⟩)) WRITE []).2.1 true (by decide) rfl
  · exact (guard_db_order_and_success "k" 0 "w"
      (some (.wellFormed ⟨some "w", 5, "k"⟩)) WRITE [⟨"w", 2⟩]).2.2.2 true ⟨"w", 2⟩
      (by decide) (by decide) (by decide)

/-- Claim C3.  `validate_user` fails with the 401 `credential_exception`
when the token fails to decode, carries a signature not made with the
configured secret, or is expired; when the token verifies but its embedded
subject differs from the claimed one, it fails with HTTP 403 — never with
the 401 credential exception; and when the token verifies for the claimed
subject it succeeds. -/
theorem validate_user_auth_cases (secret_key : String) (now : ℤ) (user_id : String) :
    (validate_user secret_key now user_id (some .malformed) = .error credential_exception) ∧
    (∀ c : JwtClaims, c.signed_with ≠ secret_key →
      validate_user secret_key now user_id (some (.wellFormed c)) = .error credential_exception) ∧
    (∀ c : JwtClaims, c.exp ≤ now →
      validate_user secret_key now user_id (some (.wellFormed c)) = .error credential_exception) ∧
    (∀ c : JwtClaims, ∀ t : String, c.signed_with = secret_key → now < c.exp →
      c.user_id = some t → t ≠ user_id →
      validate_user secret_key now user_id (some (.wellFormed c)) =
        .error (.http 403 "Authorization token can\x27t be verified specifically for this user.") ∧
      validate_user secret_key now user_id (some (.wellFormed c)) ≠
        .error credential_exception) ∧
    (∀ c : JwtClaims, c.signed_with = secret_key → now < c.exp →
      c.user_id = some user_id →
      validate_user secret_key now user_id (some (.wellFormed c)) = .ok true) := by
  refine ⟨rfl, ?_, ?_, ?_, ?_⟩
  · intro c hsig
    simp [validate_user, verify_jwt, hsig]
  · intro c hexp
    simp [validate_user, verify_jwt, show ¬(now < c.exp) by omega]
  · intro c t hsig hexp huid hne
    have hne2 : user_id ≠ t := Ne.symm hne
    constructor
    · simp [validate_user, verify_jwt, hsig, hexp, huid, hne2]
    · simp +decide [validate_user, verify_jwt, hsig, hexp, huid, hne2, credential_exception]
  · intro c hsig hexp huid
    simp [validate_user, verify_jwt, hsig, hexp, huid]

/-- Witness for claim C3 at concrete inputs: a malformed token, a token
signed with the wrong key, an expired token, a valid token for a different
subject (403), and a valid token for the claimed subject (success). -/
theorem validate_user_auth_cases_witness :
    (validate_user "s" 0 "alice" (some .malformed) = .error credential_exception) ∧
    (validate_user "s" 0 "alice" (some (.wellFormed ⟨some "alice", 10, "x"⟩)) =
      .error credential_exception) ∧
    (validate_user "s" 0 "alice" (some (.wellFormed ⟨some "alice", 0, "s"⟩)) =
      .error credential_exception) ∧
    (validate_user "s" 0 "alice" (some (.wellFormed ⟨some "bob", 10, "s"⟩)) =
      .error (.http 403 "Authorization token can\x27t be verified specifically for this user.")) ∧
    (validate_user "s" 0 "alice" (some (.wellFormed ⟨some "alice", 10, "s"⟩)) = .ok true) := by
  have h := validate_user_auth_cases "s" 0 "alice"
  exact ⟨h.1,
    h.2.1 ⟨some "alice", 10, "x"⟩ (by decide),
    h.2.2.1 ⟨some "alice", 0, "s"⟩ (by decide),
    (h.2.2.2.1 ⟨some "bob", 10, "s"⟩ "bob" rfl (by decide) rfl (by decide)).1,
    h.2.2.2.2 ⟨some "alice", 10, "s"⟩ rfl (by decide) rfl⟩

/-- Claim C4, counterexample.  Granting then revoking the same single-bit
capability does not return the original permission set when the bit was
already present: with permissions 1 (READ) granting READ yields 1 and
revoking READ then yields 0 ≠ 1. -/
theorem grant_revoke_round_trip_counterexample :
    (grant_permission 1 1).bind (fun q => revoke_permission q 1) = .ok 0 ∧ (0 : ℤ) ≠ 1 := by
  constructor
  · have hg : grant_permission 1 1 = .ok 1 := by decide
    rw [hg]
    show revoke_permission 1 1 = .ok 0
    unfold revoke_permission
    rw [if_neg (by decide), if_neg (by decide)]
    rw [show ((1:ℤ) = ((1:ℕ):ℤ)) from rfl, lnot_coe, land_coe_negSucc, ldiff_self]
    rfl
  · decide

/-- Claim C4 (amended).  For every permission set `p` in `[0, 255]` and
every single-bit capability `2 ^ k` (`k < 8`) that is not already contained
in `p`, granting and then revoking that capability returns the original
permission set.  When the bit is already present the round trip instead
clears it (see the counterexample), so the extra disjointness hypothesis is
exactly what the counterexample forces. -/
theorem grant_revoke_round_trip_of_not_set (p : ℤ) (k : ℕ) (hp0 : 0 ≤ p) (hp255 : p ≤ 255)
    (hk : k < 8) (hnot : Int.land p (2 ^ k) = 0) :
    (grant_permission p (2 ^ k)).bind (fun q => revoke_permission q (2 ^ k)) = .ok p := by
  lift p to ℕ using hp0 with n
  have hcast : ((2:ℤ) ^ k) = ((2 ^ k : ℕ) : ℤ) := by push_cast; ring
  have hle : (2:ℤ) ^ k ≤ 255 := by
    calc (2:ℤ)^k ≤ 2^7 := pow_le_pow_right₀ (by norm_num) (by omega)
    _ ≤ 255 := by norm_num
  have hrange : ¬((2:ℤ)^k < 0 ∨ (2:ℤ)^k > 255) := by
    push_neg
    exact ⟨pow_nonneg (by norm_num) k, hle⟩
  have hsub : ((2:ℤ)^k - 1) = ((2^k - 1 : ℕ) : ℤ) := by
    have h1 : (1:ℕ) ≤ 2^k := Nat.one_le_two_pow
    push_cast [h1]
    ring
  have hbit : Int.land ((2:ℤ)^k) ((2:ℤ)^k - 1) = 0 := by
    rw [hcast] at hsub ⊢
    rw [hsub, land_coe, pow2_land_pred]
    rfl
  have hnn : n &&& 2^k = 0 := by
    rw [hcast, land_coe] at hnot
    exact_mod_cast hnot
  unfold grant_permission
  rw [if_neg hrange, if_neg (by simp [hbit])]
  show revoke_permission (Int.lor ↑n ((2:ℤ)^k)) (2^k) = .ok ↑n
  unfold revoke_permission
  rw [if_neg hrange, if_neg (by simp [hbit])]
  rw [hcast, lor_coe, lnot_coe, land_coe_negSucc, ldiff_lor_self n (2^k) hnn]

/-- Witness for the amended claim C4: permissions 2 (WRITE only), capability
`2 ^ 0` (READ, not yet granted): grant then revoke returns 2. -/
theorem grant_revoke_round_trip_of_not_set_witness :
    (grant_permission 2 (2 ^ 0)).bind (fun q => revoke_permission q (2 ^ 0)) = .ok 2 :=
  grant_revoke_round_trip_of_not_set 2 0 (by decide) (by decide) (by decide) (by decide)

/-- Claim C5, counterexample.  The capability value 0 lies in `[0, 255]` and
is not a power of two (it has no set bit at all), yet `grant_permission`
and `revoke_permission` both accept it — `0 & (0 - 1) == 0` in Python —
and succeed, returning the permission set unchanged instead of failing with
the multiple-capabilities error. -/
theorem zero_capability_not_rejected :
    grant_permission 5 0 = .ok 5 ∧ revoke_permission 5 0 = .ok 5 ∧
    ∀ k : ℕ, (0:ℤ) ≠ 2 ^ k := by
  have hland : ¬(Int.land 0 ((0:ℤ) - 1) ≠ 0) := by
    show ¬(Int.land (Int.ofNat 0) (Int.negSucc 0) ≠ 0)
    rw [show Int.ofNat 0 = ((0 : ℕ) : ℤ) from rfl, land_coe_negSucc, zero_ldiff]
    simp
  refine ⟨?_, ?_, ?_⟩
  · unfold grant_permission
    rw [if_neg (by decide), if_neg hland, int_lor_zero]
  · unfold revoke_permission
    rw [if_neg (by decide), if_neg hland, int_land_lnot_zero]
  · intro k
    exact (pow_pos (by norm_num : (0:ℤ) < 2) k).ne

/-- Claim C5 (amended).  For every capability value in `[0, 255]` that is
non-zero and not a power of two — equivalently, has at least two set bits —
`grant_permission` and `revoke_permission` fail with the
multiple-capabilities `ValueError` for every permission set, and the stored
permission set is left unchanged.  Zero, although not a power of two,
passes the `c & (c - 1)` test and is accepted (see the counterexample). -/
theorem multi_bit_capability_rejected (p c : ℤ) (hc0 : 0 ≤ c) (hc255 : c ≤ 255)
    (hcne : c ≠ 0) (hnp : ∀ k : ℕ, c ≠ 2 ^ k) :
    grant_permission_apply p c = (p, some .multiplePermission) ∧
    revoke_permission_apply p c = (p, some .multiplePermission) := by
  lift c to ℕ using hc0 with m
  have hm0 : m ≠ 0 := by exact_mod_cast hcne
  have hrange : ¬((m:ℤ) < 0 ∨ (m:ℤ) > 255) := by
    push_neg
    exact ⟨Int.natCast_nonneg m, hc255⟩
  have hsub : ((m:ℤ) - 1) = ((m - 1 : ℕ) : ℤ) := by
    have h1 : 1 ≤ m := Nat.one_le_iff_ne_zero.mpr hm0
    push_cast [h1]
    ring
  have hbitne : Int.land (m:ℤ) ((m:ℤ) - 1) ≠ 0 := by
    rw [hsub, land_coe]
    intro hcontra
    have hz : m &&& (m-1) = 0 := by exact_mod_cast hcontra
    obtain ⟨k, hk⟩ := exists_pow2_of_land_pred_eq_zero m hm0 hz
    exact hnp k (by rw [hk]; push_cast; ring)
  constructor
  · unfold grant_permission_apply grant_permission
    rw [if_neg hrange, if_pos hbitne]
  · unfold revoke_permission_apply revoke_permission
    rw [if_neg hrange, if_pos hbitne]

/-- Witness for the amended claim C5: capability 3 (two set bits) on
permission set 1: both operations fail with the multiple-capabilities error
and leave the set at 1. -/
theorem multi_bit_capability_rejected_witness :
    grant_permission_apply 1 3 = (1, some .multiplePermission) ∧
    revoke_permission_apply 1 3 = (1, some .multiplePermission) :=
  multi_bit_capability_rejected 1 3 (by decide) (by decide) (by decide) (by
    intro k
    match k with
    | 0 => decide
    | 1 => decide
    | k + 2 =>
      intro h
      have h3 : (3:ℕ) = 2 ^ (k+2) := by exact_mod_cast h
      have hp : 0 < 2 ^ k := Nat.two_pow_pos k
      rw [pow_succ, pow_succ] at h3
      generalize 2 ^ k = a at h3 hp
      omega)

/-- Claim C6.  For every capability value outside `[0, 255]`,
`check_permission`, `grant_permission` and `revoke_permission` each fail
with the invalid-capability `ValueError`; and for every capability in
`[0, 255]`, `check_permission p c` succeeds and returns exactly the Boolean
`p & c != 0`. -/
theorem capability_range_validation (p c : ℤ) :
    (c < 0 ∨ c > 255 →
      check_permission p c = .error .invalidPermission ∧
      grant_permission p c = .error .invalidPermission ∧
      revoke_permission p c = .error .invalidPermission) ∧
    (0 ≤ c → c ≤ 255 → check_permission p c = .ok (decide (Int.land p c ≠ 0))) := by
  constructor
  · intro h
    refine ⟨?_, ?_, ?_⟩
    · unfold check_permission
      rw [if_pos h]
    · unfold grant_permission
      rw [if_pos h]
    · unfold revoke_permission
      rw [if_pos h]
  · intro h0 h255
    unfold check_permission
    rw [if_neg (by omega)]

/-- Witness for claim C6: capability `-1` is rejected by all three
operations, and `check_permission 3 2` returns `true` since `3 & 2 ≠ 0`. -/
theorem capability_range_validation_witness :
    check_permission 3 (-1) = .error .invalidPermission ∧
    grant_permission 3 (-1) = .error .invalidPermission ∧
    revoke_permission 3 (-1) = .error .invalidPermission ∧
    check_permission 3 2 = .ok true := by
  have h1 := (capability_range_validation 3 (-1)).1 (by decide)
  have h2 := (capability_range_validation 3 2).2 (by decide) (by decide)
  exact ⟨h1.1, h1.2.1, h1.2.2, h2.trans (by decide)⟩

/-- Claim C7.  For every score assignment and every cache snapshot, the
ranked list built by `compare_face` has exactly one `(label, score)` pair
per cached entry with no truncation; it is ordered by non-increasing score;
and it is stable: for every score value, the pairs carrying that score
appear in exactly their cache order (the pre-sort `desc_scores` order), so
repeated calls on the same snapshot return the same order (the ranking is a
pure function of the snapshot). -/
theorem compare_face_rank_complete_sorted_stable (score_of : List ℚ → ℚ)
    (cached : List (Option String × List ℚ)) :
    (compare_face_rank score_of cached).length = cached.length ∧
    List.Pairwise (fun a b : Option String × ℚ => b.2 ≤ a.2)
      (compare_face_rank score_of cached) ∧
    ∀ s : ℚ, (compare_face_rank score_of cached).filter (fun x => x.2 == s) =
      (desc_scores_of score_of cached).filter (fun x => x.2 == s) := by
  refine ⟨?_, ?_, ?_⟩
  · unfold compare_face_rank sort_desc_by_score
    rw [List.length_mergeSort, desc_scores_of, List.length_map]
  · unfold compare_face_rank sort_desc_by_score
    have h := List.sorted_mergeSort score_le_trans score_le_total
      (desc_scores_of score_of cached)
    exact h.imp (fun hab => by simpa using hab)
  · intro s
    unfold compare_face_rank sort_desc_by_score
    set l := desc_scores_of score_of cached with hl
    set p : Option String × ℚ → Bool := fun x => x.2 == s with hp
    have hpw : (l.filter p).Pairwise
        (fun a b : Option String × ℚ => decide (b.2 ≤ a.2)) := by
      apply List.pairwise_of_forall_mem_list
      intro a ha b hb
      have ha2 : a.2 = s := by simpa [hp] using (List.mem_filter.mp ha).2
      have hb2 : b.2 = s := by simpa [hp] using (List.mem_filter.mp hb).2
      simp [ha2, hb2]
    have hsub : List.Sublist (l.filter p) (List.mergeSort l (fun a b => decide (b.2 ≤ a.2))) :=
      List.sublist_mergeSort score_le_trans score_le_total hpw (List.filter_sublist l)
    have hsub2 : List.Sublist (l.filter p)
        ((List.mergeSort l (fun a b => decide (b.2 ≤ a.2))).filter p) := by
      have := hsub.filter p
      rwa [List.filter_eq_self.mpr (fun a ha => (List.mem_filter.mp ha).2)] at this
    have hlen : ((List.mergeSort l (fun a b => decide (b.2 ≤ a.2))).filter p).length =
        (l.filter p).length :=
      ((List.mergeSort_perm l _).filter p).length_eq
    exact (hsub2.eq_of_length hlen.symm).symm

/-- Claim C8.  When the query embedding is identical to a cached entry's
embedding, `compare_faces` assigns that entry the score `1 / ε` with
`ε = np.finfo(np.float32).eps = 2 ^ (-23)`; the score is a genuine
(finite, positive) real number since the `ε` summand keeps the denominator
away from zero; the pair `(label, 1 / ε)` occurs in the score list; and
`1 / ε` bounds every score in the list, hence is the maximum of the ranked
list, which is a permutation of the score list. -/
theorem exact_match_score_is_max (q : List ℝ) (cached : List (Option String × List ℝ))
    (lbl : Option String) (hmem : (lbl, q) ∈ cached) :
    compare_faces q q = 1 / float32_eps ∧
    0 < compare_faces q q ∧
    (lbl, 1 / float32_eps) ∈ compare_face_scores q cached ∧
    ∀ pr ∈ compare_face_scores q cached, pr.2 ≤ 1 / float32_eps := by
  refine ⟨compare_faces_self q, ?_, ?_, ?_⟩
  · rw [compare_faces_self]
    exact one_div_pos.mpr float32_eps_pos
  · exact List.mem_map.mpr ⟨(lbl, q), hmem, by rw [compare_faces_self]⟩
  · intro pr hpr
    obtain ⟨cf, _, rfl⟩ := List.mem_map.mp hpr
    exact compare_faces_le q cf.2

/-- Witness for claim C8 on a concrete one-entry snapshot whose embedding
equals the query. -/
theorem exact_match_score_is_max_witness :
    compare_faces [1] [1] = 1 / float32_eps ∧
    0 < compare_faces [1] [1] ∧
    (some "a", 1 / float32_eps) ∈ compare_face_scores [1] [(some "a", [1])] ∧
    ∀ pr ∈ compare_face_scores [1] [(some "a", [1])], pr.2 ≤ 1 / float32_eps :=
  exact_match_score_is_max [1] [(some "a", [1])] (some "a") (by simp)

/-- Claim C9 (code bug).  The claim says an upload whose blob yields no
detected face fails with the explicit request-level "no face" rejection
and creates no Face Record — and the code indeed contains that rejection
branch (`src/CRUD/face/services.py` lines 142-144).  But the branch is
unreachable: line 137 calls `_guard_db(auth=face_upload, permission=WRITE,
db=db)` without the required `token` argument of `src/query.py` line 53
(and the `FaceUpload` schema carries no token to supply), so every upload
request — whatever the extractor or file checker would say — raises
`TypeError` before file-type checking or face detection, surfacing as an
unhandled 500, never as the modelled 400 rejection.  No Face Record is
created either way: the crash precedes `db.add`, so the stored face set is
exactly what it was before the call. -/
theorem upload_face_crashes_before_face_detection :
    ∀ (check_file_type : String → Except Err Bool)
      (retrieve_face_feature : String → Option (List ℚ))
      (req : FaceUpload) (users : List User) (faces : List FaceRec),
      upload_face check_file_type retrieve_face_feature req users faces =
        .error (.typeError
          "_guard_db() missing 1 required positional argument: \x27token\x27") ∧
      upload_face check_file_type retrieve_face_feature req users faces ≠
        .error (.http 400 "No face detected, therefore the image is not saved.") ∧
      upload_face_faces_after check_file_type retrieve_face_feature req users faces
        = faces := by
  intro check_file_type retrieve_face_feature req users faces
  refine ⟨rfl, by simp [upload_face, guard_db_call_missing_token], rfl⟩

/-- Claim C10.  For every permission set in `[0, 255]` the capability value
0 passes validation in all three permission operations: `check_permission`
succeeds returning `false` (since `p & 0 = 0`), and `grant_permission` and
`revoke_permission` succeed returning the permission set unchanged
(`p | 0 = p` and `p & ~0 = p`), even though 0 is not a power of two. -/
theorem zero_capability_accepted (p : ℤ) (hp0 : 0 ≤ p) (hp255 : p ≤ 255) :
    check_permission p 0 = .ok false ∧
    grant_permission p 0 = .ok p ∧
    revoke_permission p 0 = .ok p := by
  have hrange : ¬((0 : ℤ) < 0 ∨ (0 : ℤ) > 255) := by omega
  have hland : Int.land 0 (-1 : ℤ) = 0 := by
    show Int.land (Int.ofNat 0) (Int.negSucc 0) = 0
    rw [show Int.ofNat 0 = ((0 : ℕ) : ℤ) from rfl, land_coe_negSucc, zero_ldiff]
    rfl
  refine ⟨?_, ?_, ?_⟩
  · simp [check_permission, hrange, int_land_zero]
  · simp [grant_permission, hrange, hland, int_lor_zero]
  · simp [revoke_permission, hrange, hland, int_land_lnot_zero]

/-- Witness for claim C10 at permission set 6. -/
theorem zero_capability_accepted_witness :
    check_permission 6 0 = .ok false ∧
    grant_permission 6 0 = .ok 6 ∧
    revoke_permission 6 0 = .ok 6 :=
  zero_capability_accepted 6 (by decide) (by decide)

end PostureFaceCompare
